import Mathlib

/-!
Verification of the retrieval-and-answer orchestration pipeline of
`services/chat_service.py` (class `ChatService`).

Conventions of the embedding:

* Python `float` similarity scores and thresholds are modelled as exact
  rationals (`ℚ`).  Threshold literals such as `0.3` are written `mkRat 3 10`;
  the lemmas `mkRat_3_10`, `mkRat_8_10`, … record that these are exactly the
  decimal literals.  Rational addition and division-by-a-length are written
  with the executable helpers `addQ` / `divQNat`, proved equal to `+` and `/`
  by `addQ_eq` / `divQNat_eq`.
* Python strings are Lean `String`s; `str.lower()`, `str.strip()`,
  `str.split()`, `str.split(sep)`, slicing and the `in` substring operator are
  modelled by the character-list helpers `pyLower`, `pyStrip`, `pySplit`,
  `pySplitLines`, `pyTake` and `strContains` below (ASCII case folding and
  ASCII whitespace, as in the keyword matching the service performs).
* A retrieved chunk is a Python dict; `chunk.get('similarity_score', 0)`,
  `chunk.get('text', '')` and `chunk.get('metadata', {}).get(k, default)`
  are modelled by the `Chunk` / `ChunkMeta` fields, with the `.get` defaults
  baked into the metadata fields.
-/

/-- Exact rational addition, `a + b`, in an executable normal form. -/
def addQ (a b : ℚ) : ℚ := mkRat (a.num * b.den + b.num * a.den) (a.den * b.den)

/-- Sum of a list of rationals using `addQ`. -/
def sumQ (l : List ℚ) : ℚ := l.foldr addQ 0

/-- Exact rational division by a natural number, `q / n`. -/
def divQNat (q : ℚ) (n : ℕ) : ℚ := mkRat q.num (q.den * n)

theorem addQ_eq (a b : ℚ) : addQ a b = a + b := by
  have ha : (a.den : ℚ) ≠ 0 := Nat.cast_ne_zero.mpr a.den_nz
  have hb : (b.den : ℚ) ≠ 0 := Nat.cast_ne_zero.mpr b.den_nz
  have na : (a.num : ℚ) = a * a.den := (div_eq_iff ha).mp (Rat.num_div_den a)
  have nb : (b.num : ℚ) = b * b.den := (div_eq_iff hb).mp (Rat.num_div_den b)
  unfold addQ
  rw [Rat.mkRat_eq_div]
  push_cast
  field_simp
  rw [na, nb]
  ring

theorem sumQ_eq (l : List ℚ) : sumQ l = l.sum := by
  induction l with
  | nil => rfl
  | cons a l ih => simp [sumQ, List.foldr, addQ_eq, List.sum_cons, ← ih]

theorem divQNat_eq (q : ℚ) (n : ℕ) : divQNat q n = q / n := by
  unfold divQNat
  rw [Rat.mkRat_eq_div]
  push_cast
  rw [div_mul_eq_div_div]
  congr 1
  exact Rat.num_div_den q

theorem mkRat_3_10 : (mkRat 3 10 : ℚ) = 0.3 := by norm_num [mkRat, Rat.normalize]

theorem mkRat_4_10 : (mkRat 4 10 : ℚ) = 0.4 := by norm_num [mkRat, Rat.normalize]

theorem mkRat_6_10 : (mkRat 6 10 : ℚ) = 0.6 := by norm_num [mkRat, Rat.normalize]

theorem mkRat_8_10 : (mkRat 8 10 : ℚ) = 0.8 := by norm_num [mkRat, Rat.normalize]

theorem mkRat_9_10 : (mkRat 9 10 : ℚ) = 0.9 := by norm_num [mkRat, Rat.normalize]

/-- Python `str.lower()` (ASCII case folding, character-wise). -/
def pyLower (s : String) : String := String.mk (s.data.map Char.toLower)

/-- Python `str.strip()`: drop whitespace from both ends. -/
def pyStrip (s : String) : String :=
  String.mk (((s.data.dropWhile Char.isWhitespace).reverse.dropWhile
    Char.isWhitespace).reverse)

/-- Python `s.lower().strip()`, the query normalisation the service uses. -/
def pyNormalize (s : String) : String := pyStrip (pyLower s)

/-- Python `str.strip(chars)`: drop the given characters from both ends. -/
def pyStripChars (bad : List Char) (s : String) : String :=
  String.mk (((s.data.dropWhile (fun c => bad.contains c)).reverse.dropWhile
    (fun c => bad.contains c)).reverse)

/-- Worker for `pySplit`: whitespace-separated words, empties dropped. -/
def splitWsAux : List Char → List Char → List String
  | acc, [] => if acc.isEmpty then [] else [String.mk acc.reverse]
  | acc, c :: cs =>
    if c.isWhitespace then
      if acc.isEmpty then splitWsAux [] cs
      else String.mk acc.reverse :: splitWsAux [] cs
    else splitWsAux (c :: acc) cs

/-- Python `str.split()` with no argument: runs of whitespace separate words,
leading/trailing whitespace ignored. -/
def pySplit (s : String) : List String := splitWsAux [] s.data

/-- Worker for `pySplitLines`. -/
def splitNlAux : List Char → List Char → List String
  | acc, [] => [String.mk acc.reverse]
  | acc, c :: cs =>
    if c = '\n' then String.mk acc.reverse :: splitNlAux [] cs
    else splitNlAux (c :: acc) cs

/-- Python `str.split('\n')`: split on newlines, keeping empty pieces. -/
def pySplitLines (s : String) : List String := splitNlAux [] s.data

/-- Python slicing `s[:n]` (by code points). -/
def pyTake (s : String) (n : ℕ) : String := String.mk (s.data.take n)

/-- Does `needle` occur at the head of `hay`? -/
def listStarts : List Char → List Char → Bool
  | [], _ => true
  | _ :: _, [] => false
  | a :: as, b :: bs => a = b && listStarts as bs

/-- Does `needle` occur somewhere inside `hay`? -/
def listHasSub : List Char → List Char → Bool
  | needle, [] => needle.isEmpty
  | needle, b :: bs => listStarts needle (b :: bs) || listHasSub needle bs

/-- Python `pat in s` for strings: substring containment. -/
def strContains (s pat : String) : Bool := listHasSub pat.data s.data

/-- Metadata of a retrieved chunk.  The field values are what the service
reads via `chunk.get('metadata', {}).get(key, default)`, defaults included. -/
structure ChunkMeta where
  filename : String := "Unknown"
  source : String := "document"
  upload_time : String := "unknown"
deriving DecidableEq

/-- A retrieved knowledge-base chunk (`similarity_score`, `text`,
`metadata`). -/
structure Chunk where
  similarity_score : ℚ
  text : String
  metadata : ChunkMeta
deriving DecidableEq

/-- Result dictionary of `_analyze_query_complexity`. -/
structure QueryAnalysis where
  complexity : String
  optimal_chunks : ℕ
  technical_score : ℕ
  specificity_score : ℕ
  word_count : ℕ
deriving DecidableEq

/-- The fixed technical-keyword list of `_analyze_query_complexity`. -/
def technical_keywords : List String :=
  ["how", "why", "what", "when", "where", "troubleshoot", "error", "problem",
   "issue", "configure", "install", "setup"]

/-- The fixed specific-terms list of `_analyze_query_complexity`. -/
def specific_terms : List String :=
  ["api", "database", "server", "configuration", "authentication",
   "deployment", "integration"]

/-- `sum(1 for t in terms if t in s)`: how many of `terms` occur in `s`. -/
def count_matches (terms : List String) (s : String) : ℕ :=
  (terms.filter (fun t => strContains s t)).length

/-- `ChatService._analyze_query_complexity`: classify a query and pick the
number of chunks to retrieve. -/
def analyze_query_complexity (query : String) : QueryAnalysis :=
  if (pySplit query).length ≤ 3 ∧
      count_matches technical_keywords (pyNormalize query) = 0 then
    ⟨"simple", 3, count_matches technical_keywords (pyNormalize query),
      count_matches specific_terms (pyNormalize query), (pySplit query).length⟩
  else if (pySplit query).length ≤ 8 ∧
      count_matches technical_keywords (pyNormalize query) ≤ 2 then
    ⟨"moderate", 5, count_matches technical_keywords (pyNormalize query),
      count_matches specific_terms (pyNormalize query), (pySplit query).length⟩
  else
    ⟨"complex", 8, count_matches technical_keywords (pyNormalize query),
      count_matches specific_terms (pyNormalize query), (pySplit query).length⟩

/-- Core fields of the dictionary `_evaluate_kb_confidence` returns (the
diagnostic echo fields `avg_similarity`, `high_confidence_chunks`,
`total_context_length` of the non-empty branch are never read by callers and
are exposed here as the standalone functions below instead). -/
structure KbConfidence where
  confidence : ℚ
  should_search_web : Bool
  reason : String
deriving DecidableEq

/-- `sum(chunk.get('similarity_score', 0) for chunk in chunks)`. -/
def sum_scores (chunks : List Chunk) : ℚ :=
  sumQ (chunks.map (fun c => c.similarity_score))

/-- Average similarity score of a chunk list (`sum / len`). -/
def avg_similarity (chunks : List Chunk) : ℚ :=
  divQNat (sum_scores chunks) chunks.length

theorem avg_similarity_eq (chunks : List Chunk) :
    avg_similarity chunks =
      (chunks.map (fun c => c.similarity_score)).sum / (chunks.length : ℚ) := by
  rw [avg_similarity, divQNat_eq, sum_scores, sumQ_eq]

/-- `[c for c in chunks if c.get('similarity_score', 0) >= 0.8]`. -/
def high_confidence_chunks (chunks : List Chunk) : List Chunk :=
  chunks.filter (fun c => c.similarity_score ≥ mkRat 8 10)

/-- `sum(len(chunk.get('text', '')) for chunk in chunks)`. -/
def total_text_length (chunks : List Chunk) : ℕ :=
  (chunks.map (fun c => c.text.length)).sum

/-- `ChatService._evaluate_kb_confidence`: confidence cascade over retrieved
chunks.  The `query` argument is unused by the source as well. -/
def evaluate_kb_confidence (chunks : List Chunk) (_query : String) :
    KbConfidence :=
  if chunks.isEmpty then ⟨0, true, "no_kb_results"⟩
  else if avg_similarity chunks ≥ mkRat 8 10 ∧
      (high_confidence_chunks chunks).length ≥ 2 then
    ⟨mkRat 9 10, false, "high_confidence_kb_match"⟩
  else if avg_similarity chunks ≥ mkRat 6 10 ∧
      total_text_length chunks ≥ 500 then
    ⟨mkRat 7 10, false, "sufficient_kb_context"⟩
  else if avg_similarity chunks ≥ mkRat 4 10 then
    ⟨mkRat 5 10, true, "moderate_kb_match_needs_web"⟩
  else
    ⟨mkRat 2 10, true, "low_kb_confidence"⟩

lemma eval_kb_b1 (chunks : List Chunk) (q : String)
    (hne : chunks.isEmpty = false)
    (h : avg_similarity chunks ≥ mkRat 8 10 ∧
      (high_confidence_chunks chunks).length ≥ 2) :
    evaluate_kb_confidence chunks q =
      ⟨mkRat 9 10, false, "high_confidence_kb_match"⟩ := by
  unfold evaluate_kb_confidence
  rw [if_neg (by simp [hne]), if_pos h]

lemma eval_kb_b2 (chunks : List Chunk) (q : String)
    (hne : chunks.isEmpty = false)
    (h1 : ¬(avg_similarity chunks ≥ mkRat 8 10 ∧
      (high_confidence_chunks chunks).length ≥ 2))
    (h2 : avg_similarity chunks ≥ mkRat 6 10 ∧ total_text_length chunks ≥ 500) :
    evaluate_kb_confidence chunks q =
      ⟨mkRat 7 10, false, "sufficient_kb_context"⟩ := by
  unfold evaluate_kb_confidence
  rw [if_neg (by simp [hne]), if_neg h1, if_pos h2]

lemma eval_kb_b3 (chunks : List Chunk) (q : String)
    (hne : chunks.isEmpty = false)
    (h1 : ¬(avg_similarity chunks ≥ mkRat 8 10 ∧
      (high_confidence_chunks chunks).length ≥ 2))
    (h2 : ¬(avg_similarity chunks ≥ mkRat 6 10 ∧
      total_text_length chunks ≥ 500))
    (h3 : avg_similarity chunks ≥ mkRat 4 10) :
    evaluate_kb_confidence chunks q =
      ⟨mkRat 5 10, true, "moderate_kb_match_needs_web"⟩ := by
  unfold evaluate_kb_confidence
  rw [if_neg (by simp [hne]), if_neg h1, if_neg h2, if_pos h3]

lemma eval_kb_b4 (chunks : List Chunk) (q : String)
    (hne : chunks.isEmpty = false)
    (h1 : ¬(avg_similarity chunks ≥ mkRat 8 10 ∧
      (high_confidence_chunks chunks).length ≥ 2))
    (h2 : ¬(avg_similarity chunks ≥ mkRat 6 10 ∧
      total_text_length chunks ≥ 500))
    (h3 : ¬(avg_similarity chunks ≥ mkRat 4 10)) :
    evaluate_kb_confidence chunks q = ⟨mkRat 2 10, true, "low_kb_confidence"⟩ := by
  unfold evaluate_kb_confidence
  rw [if_neg (by simp [hne]), if_neg h1, if_neg h2, if_neg h3]

/-- C1: `_evaluate_kb_confidence` is decided by the first matching rule of the
fixed cascade: empty input gives confidence 0.0 / web-search true /
`no_kb_results`; otherwise, with `avg_similarity` the mean similarity score,
high-confidence count the number of chunks scoring at least 0.8, and total
text length the sum of chunk text lengths: avg at least 0.8 with count at
least 2 gives 0.9 / false / `high_confidence_kb_match`; else avg at least 0.6
with total length at least 500 gives 0.7 / false / `sufficient_kb_context`;
else avg at least 0.4 gives 0.5 / true / `moderate_kb_match_needs_web`; else
0.2 / true / `low_kb_confidence`.  (Thresholds and results are the exact
rationals `mkRat k 10`, i.e. the decimal literals, see `mkRat_8_10` etc.) -/
theorem evaluate_kb_confidence_cascade (chunks : List Chunk) (q : String) :
    (chunks = [] →
      evaluate_kb_confidence chunks q = ⟨0, true, "no_kb_results"⟩)
  ∧ (chunks ≠ [] →
      (avg_similarity chunks ≥ mkRat 8 10 ∧
          (high_confidence_chunks chunks).length ≥ 2 →
        evaluate_kb_confidence chunks q =
          ⟨mkRat 9 10, false, "high_confidence_kb_match"⟩)
    ∧ (¬(avg_similarity chunks ≥ mkRat 8 10 ∧
          (high_confidence_chunks chunks).length ≥ 2) →
        avg_similarity chunks ≥ mkRat 6 10 ∧ total_text_length chunks ≥ 500 →
        evaluate_kb_confidence chunks q =
          ⟨mkRat 7 10, false, "sufficient_kb_context"⟩)
    ∧ (¬(avg_similarity chunks ≥ mkRat 8 10 ∧
          (high_confidence_chunks chunks).length ≥ 2) →
        ¬(avg_similarity chunks ≥ mkRat 6 10 ∧
          total_text_length chunks ≥ 500) →
        avg_similarity chunks ≥ mkRat 4 10 →
        evaluate_kb_confidence chunks q =
          ⟨mkRat 5 10, true, "moderate_kb_match_needs_web"⟩)
    ∧ (¬(avg_similarity chunks ≥ mkRat 8 10 ∧
          (high_confidence_chunks chunks).length ≥ 2) →
        ¬(avg_similarity chunks ≥ mkRat 6 10 ∧
          total_text_length chunks ≥ 500) →
        ¬(avg_similarity chunks ≥ mkRat 4 10) →
        evaluate_kb_confidence chunks q =
          ⟨mkRat 2 10, true, "low_kb_confidence"⟩)) := by
  refine ⟨fun h => by subst h; rfl, fun hne => ?_⟩
  have he : chunks.isEmpty = false := by cases chunks <;> simp_all
  exact ⟨fun h1 => eval_kb_b1 chunks q he h1,
    fun h1 h2 => eval_kb_b2 chunks q he h1 h2,
    fun h1 h2 h3 => eval_kb_b3 chunks q he h1 h2 h3,
    fun h1 h2 h3 => eval_kb_b4 chunks q he h1 h2 h3⟩

theorem evaluate_kb_confidence_cascade_witness :
    evaluate_kb_confidence [] "q" = ⟨0, true, "no_kb_results"⟩ ∧
    evaluate_kb_confidence
        [⟨mkRat 9 10, "turn it off", {}⟩, ⟨mkRat 85 100, "turn it on", {}⟩]
        "q" =
      ⟨mkRat 9 10, false, "high_confidence_kb_match"⟩ :=
  ⟨(evaluate_kb_confidence_cascade [] "q").1 rfl,
   ((evaluate_kb_confidence_cascade
      [⟨mkRat 9 10, "turn it off", {}⟩, ⟨mkRat 85 100, "turn it on", {}⟩]
      "q").2 (by decide)).1 (by decide)⟩

/-- C2: `_analyze_query_complexity` is a pure function of the query string;
`word_count` is the number of whitespace-separated words, `technical_score`
counts (case-insensitively, by substring match on the lowered, stripped
query) the fixed keyword set `technical_keywords`; a query with at most 3
words and technical score 0 is `simple` with 3 chunks, else at most 8 words
and technical score at most 2 is `moderate` with 5, otherwise `complex`
with 8. -/
theorem analyze_query_complexity_classification (query : String) :
    (analyze_query_complexity query).word_count = (pySplit query).length
  ∧ (analyze_query_complexity query).technical_score =
      count_matches technical_keywords (pyNormalize query)
  ∧ ((pySplit query).length ≤ 3 ∧
        count_matches technical_keywords (pyNormalize query) = 0 →
      (analyze_query_complexity query).complexity = "simple" ∧
      (analyze_query_complexity query).optimal_chunks = 3)
  ∧ (¬((pySplit query).length ≤ 3 ∧
        count_matches technical_keywords (pyNormalize query) = 0) →
      (pySplit query).length ≤ 8 ∧
        count_matches technical_keywords (pyNormalize query) ≤ 2 →
      (analyze_query_complexity query).complexity = "moderate" ∧
      (analyze_query_complexity query).optimal_chunks = 5)
  ∧ (¬((pySplit query).length ≤ 3 ∧
        count_matches technical_keywords (pyNormalize query) = 0) →
      ¬((pySplit query).length ≤ 8 ∧
        count_matches technical_keywords (pyNormalize query) ≤ 2) →
      (analyze_query_complexity query).complexity = "complex" ∧
      (analyze_query_complexity query).optimal_chunks = 8) := by
  unfold analyze_query_complexity
  split_ifs with h1 h2 <;> simp_all

theorem analyze_query_complexity_classification_witness :
    (analyze_query_complexity "reset the arm").complexity = "simple" ∧
    (analyze_query_complexity "reset the arm").optimal_chunks = 3 :=
  (analyze_query_complexity_classification "reset the arm").2.2.1 (by decide)

/-- C6: the Confidence Evaluator is monotone in the average similarity: two
non-empty chunk lists that agree on the number of chunks scoring at least 0.8
and on the total text length, ordered by average similarity, get ordered
confidence values. -/
theorem evaluate_kb_confidence_monotone (l1 l2 : List Chunk) (q1 q2 : String)
    (h1 : l1 ≠ []) (h2 : l2 ≠ [])
    (hc : (high_confidence_chunks l1).length = (high_confidence_chunks l2).length)
    (ht : total_text_length l1 = total_text_length l2)
    (ha : avg_similarity l1 ≤ avg_similarity l2) :
    (evaluate_kb_confidence l1 q1).confidence ≤
      (evaluate_kb_confidence l2 q2).confidence := by
  have e1 : l1.isEmpty = false := by cases l1 <;> simp_all
  have e2 : l2.isEmpty = false := by cases l2 <;> simp_all
  by_cases A1 : avg_similarity l1 ≥ mkRat 8 10 ∧
      (high_confidence_chunks l1).length ≥ 2
  · rw [eval_kb_b1 l1 q1 e1 A1,
      eval_kb_b1 l2 q2 e2 ⟨le_trans A1.1 ha, hc ▸ A1.2⟩]
  · by_cases A2 : avg_similarity l1 ≥ mkRat 6 10 ∧ total_text_length l1 ≥ 500
    · rw [eval_kb_b2 l1 q1 e1 A1 A2]
      by_cases B1 : avg_similarity l2 ≥ mkRat 8 10 ∧
          (high_confidence_chunks l2).length ≥ 2
      · rw [eval_kb_b1 l2 q2 e2 B1]; decide
      · rw [eval_kb_b2 l2 q2 e2 B1 ⟨le_trans A2.1 ha, ht ▸ A2.2⟩]
    · by_cases A3 : avg_similarity l1 ≥ mkRat 4 10
      · rw [eval_kb_b3 l1 q1 e1 A1 A2 A3]
        by_cases B1 : avg_similarity l2 ≥ mkRat 8 10 ∧
            (high_confidence_chunks l2).length ≥ 2
        · rw [eval_kb_b1 l2 q2 e2 B1]; decide
        · by_cases B2 : avg_similarity l2 ≥ mkRat 6 10 ∧
              total_text_length l2 ≥ 500
          · rw [eval_kb_b2 l2 q2 e2 B1 B2]; decide
          · rw [eval_kb_b3 l2 q2 e2 B1 B2 (le_trans A3 ha)]
      · rw [eval_kb_b4 l1 q1 e1 A1 A2 A3]
        by_cases B1 : avg_similarity l2 ≥ mkRat 8 10 ∧
            (high_confidence_chunks l2).length ≥ 2
        · rw [eval_kb_b1 l2 q2 e2 B1]; decide
        · by_cases B2 : avg_similarity l2 ≥ mkRat 6 10 ∧
              total_text_length l2 ≥ 500
          · rw [eval_kb_b2 l2 q2 e2 B1 B2]; decide
          · by_cases B3 : avg_similarity l2 ≥ mkRat 4 10
            · rw [eval_kb_b3 l2 q2 e2 B1 B2 B3]; decide
            · rw [eval_kb_b4 l2 q2 e2 B1 B2 B3]

theorem evaluate_kb_confidence_monotone_witness :
    (evaluate_kb_confidence [⟨mkRat 4 10, "a", {}⟩] "q1").confidence ≤
      (evaluate_kb_confidence [⟨mkRat 7 10, "b", {}⟩] "q2").confidence :=
  evaluate_kb_confidence_monotone [⟨mkRat 4 10, "a", {}⟩]
    [⟨mkRat 7 10, "b", {}⟩] "q1" "q2" (by decide) (by decide) (by decide)
    (by decide) (by decide)

/-- The fixed minimum similarity score (`confidence_threshold = 0.3`) of
`_search_knowledge_base`. -/
def confidence_threshold : ℚ := mkRat 3 10

/-- `self._cache_max_size = 100`. -/
def cache_max_size : ℕ := 100

/-- Python `agent_id or 'global'` (`None` and `""` are falsy). -/
def agent_or_global : Option String → String
  | none => "global"
  | some s => if s = "" then "global" else s

/-- Python truthiness of the `agent_id` argument. -/
def agent_truthy : Option String → Bool
  | none => false
  | some s => decide ¬(s = "")

/-- `top_k if top_k is not None else optimal chunk count of the query`. -/
def resolve_top_k (query : String) : Option ℕ → ℕ
  | some k => k
  | none => (analyze_query_complexity query).optimal_chunks

/-- `f"{agent_id or 'global'}:{query.lower().strip()}:{top_k}"`. -/
def cache_key_of (agentId : Option String) (query : String) (topK : ℕ) :
    String :=
  agent_or_global agentId ++ ":" ++ pyNormalize query ++ ":" ++ toString topK

/-- The query cache `self._query_cache`: a Python dict in insertion order,
oldest entry first. -/
abbrev Cache := List (String × List Chunk)

/-- Dict membership test plus indexing: the value stored at `key`. -/
def cacheLookup (key : String) : Cache → Option (List Chunk)
  | [] => none
  | (k, v) :: rest => if k = key then some v else cacheLookup key rest

/-- The vector-search collaborator behind `_search_knowledge_base`: the call
`agent_service.search_agent(agent_id, query, top_k, user_id)` when the agent
id is truthy, else `knowledge_base.search(query, top_k)`; the first argument
carries the truthy agent id or `none`.  `Except.error` models the
collaborator raising; the `user_id` pass-through is absorbed into the
function. -/
abbrev Fetch := Option String → String → ℕ → Except String (List Chunk)

/-- `ChatService._search_knowledge_base`: adaptive retrieval with caching.
Returns the chunk list handed to the caller, the cache after the call
(`self._query_cache` is instance state), and how many times the underlying
fetch was invoked (0 or 1).  On a miss the results are filtered by
`confidence_threshold`; if the cache is at capacity the oldest entry is
deleted (`next(iter(...))` = head) before the new entry is appended; if the
fetch raises, the `except` branch returns `[]` and the cache is untouched. -/
def search_knowledge_base (fetch : Fetch) (cache : Cache) (query : String)
    (agentId : Option String) (topK? : Option ℕ) : List Chunk × Cache × ℕ :=
  match cacheLookup (cache_key_of agentId query (resolve_top_k query topK?))
      cache with
  | some cached => (cached, cache, 0)
  | none =>
    match fetch (if agent_truthy agentId then agentId else none) query
        (resolve_top_k query topK?) with
    | Except.error _ => ([], cache, 1)
    | Except.ok results =>
      (results.filter (fun r => r.similarity_score ≥ confidence_threshold),
       (if cache.length ≥ cache_max_size then cache.tail else cache) ++
         [(cache_key_of agentId query (resolve_top_k query topK?),
           results.filter (fun r => r.similarity_score ≥ confidence_threshold))],
       1)

lemma cacheLookup_append_self (key : String) (v : List Chunk) (c : Cache)
    (h : cacheLookup key c = none) :
    cacheLookup key (c ++ [(key, v)]) = some v := by
  induction c with
  | nil => simp [cacheLookup]
  | cons kv rest ih =>
    obtain ⟨k, w⟩ := kv
    by_cases hk : k = key
    · simp [cacheLookup, hk] at h
    · simp only [cacheLookup, List.cons_append, if_neg hk] at h ⊢
      exact ih h

lemma cacheLookup_tail_none (key : String) (c : Cache)
    (h : cacheLookup key c = none) : cacheLookup key c.tail = none := by
  cases c with
  | nil => rfl
  | cons kv rest =>
    obtain ⟨k, w⟩ := kv
    by_cases hk : k = key
    · simp [cacheLookup, hk] at h
    · simpa [cacheLookup, hk] using h

lemma search_kb_hit (fetch : Fetch) (c : Cache) (q : String)
    (agentId : Option String) (topK? : Option ℕ) (v : List Chunk)
    (h : cacheLookup (cache_key_of agentId q (resolve_top_k q topK?)) c =
      some v) :
    search_knowledge_base fetch c q agentId topK? = (v, c, 0) := by
  unfold search_knowledge_base
  rw [h]

lemma search_kb_miss_ok (fetch : Fetch) (c : Cache) (q : String)
    (agentId : Option String) (topK? : Option ℕ) (rs : List Chunk)
    (hm : cacheLookup (cache_key_of agentId q (resolve_top_k q topK?)) c =
      none)
    (hf : fetch (if agent_truthy agentId then agentId else none) q
      (resolve_top_k q topK?) = Except.ok rs) :
    search_knowledge_base fetch c q agentId topK? =
      (rs.filter (fun r => r.similarity_score ≥ confidence_threshold),
       (if c.length ≥ cache_max_size then c.tail else c) ++
         [(cache_key_of agentId q (resolve_top_k q topK?),
           rs.filter (fun r => r.similarity_score ≥ confidence_threshold))],
       1) := by
  unfold search_knowledge_base
  rw [hm, hf]

lemma search_kb_miss_err (fetch : Fetch) (c : Cache) (q : String)
    (agentId : Option String) (topK? : Option ℕ) (e : String)
    (hm : cacheLookup (cache_key_of agentId q (resolve_top_k q topK?)) c =
      none)
    (hf : fetch (if agent_truthy agentId then agentId else none) q
      (resolve_top_k q topK?) = Except.error e) :
    search_knowledge_base fetch c q agentId topK? = ([], c, 1) := by
  unfold search_knowledge_base
  rw [hm, hf]

/-- C3: two consecutive `_search_knowledge_base` calls with the same scope
identifier, the same normalised (lowered, stripped) query text and the same
depth invoke the underlying fetch exactly once (on the first call, a miss
whose vector search succeeds): the second call is a cache hit that returns
the confidence-filtered list the first call stored, without calling the
search collaborator again. -/
theorem search_knowledge_base_cache_hit
    (fetch : Fetch) (cache : Cache) (q1 q2 : String) (agentId : Option String)
    (d : ℕ) (rs : List Chunk)
    (hnorm : pyNormalize q1 = pyNormalize q2)
    (hmiss : cacheLookup (cache_key_of agentId q1 d) cache = none)
    (hfetch : fetch (if agent_truthy agentId then agentId else none) q1 d =
      Except.ok rs) :
    (search_knowledge_base fetch cache q1 agentId (some d)).2.2 = 1
  ∧ (search_knowledge_base fetch
      (search_knowledge_base fetch cache q1 agentId (some d)).2.1
      q2 agentId (some d)).2.2 = 0
  ∧ (search_knowledge_base fetch cache q1 agentId (some d)).1 =
      rs.filter (fun r => r.similarity_score ≥ confidence_threshold)
  ∧ (search_knowledge_base fetch
      (search_knowledge_base fetch cache q1 agentId (some d)).2.1
      q2 agentId (some d)).1 =
      (search_knowledge_base fetch cache q1 agentId (some d)).1 := by
  have hkey : cache_key_of agentId q2 d = cache_key_of agentId q1 d := by
    unfold cache_key_of
    rw [hnorm]
  have hfirst : search_knowledge_base fetch cache q1 agentId (some d) =
      (rs.filter (fun r => r.similarity_score ≥ confidence_threshold),
       (if cache.length ≥ cache_max_size then cache.tail else cache) ++
         [(cache_key_of agentId q1 d,
           rs.filter (fun r => r.similarity_score ≥ confidence_threshold))],
       1) := search_kb_miss_ok fetch cache q1 agentId (some d) rs hmiss hfetch
  have hmiss2 : cacheLookup (cache_key_of agentId q1 d)
      (if cache.length ≥ cache_max_size then cache.tail else cache) = none := by
    by_cases hlen : cache.length ≥ cache_max_size
    · rw [if_pos hlen]
      exact cacheLookup_tail_none _ _ hmiss
    · rw [if_neg hlen]
      exact hmiss
  have hhit : cacheLookup (cache_key_of agentId q2 d)
      (search_knowledge_base fetch cache q1 agentId (some d)).2.1 =
      some (rs.filter (fun r => r.similarity_score ≥ confidence_threshold)) := by
    rw [hfirst, hkey]
    exact cacheLookup_append_self _ _ _ hmiss2
  have hsecond : search_knowledge_base fetch
      (search_knowledge_base fetch cache q1 agentId (some d)).2.1
      q2 agentId (some d) =
      (rs.filter (fun r => r.similarity_score ≥ confidence_threshold),
       (search_knowledge_base fetch cache q1 agentId (some d)).2.1, 0) :=
    search_kb_hit fetch _ q2 agentId (some d) _ hhit
  refine ⟨by rw [hfirst], by rw [hsecond], by rw [hfirst], by rw [hsecond, hfirst]⟩

theorem search_knowledge_base_cache_hit_witness :
    (search_knowledge_base (fun _ _ _ => Except.ok [⟨mkRat 9 10, "a", {}⟩])
      [] "Hi" none (some 3)).2.2 = 1
  ∧ (search_knowledge_base (fun _ _ _ => Except.ok [⟨mkRat 9 10, "a", {}⟩])
      (search_knowledge_base (fun _ _ _ => Except.ok [⟨mkRat 9 10, "a", {}⟩])
        [] "Hi" none (some 3)).2.1
      "hi" none (some 3)).2.2 = 0
  ∧ (search_knowledge_base (fun _ _ _ => Except.ok [⟨mkRat 9 10, "a", {}⟩])
      [] "Hi" none (some 3)).1 =
      List.filter (fun r => r.similarity_score ≥ confidence_threshold)
        [⟨mkRat 9 10, "a", {}⟩]
  ∧ (search_knowledge_base (fun _ _ _ => Except.ok [⟨mkRat 9 10, "a", {}⟩])
      (search_knowledge_base (fun _ _ _ => Except.ok [⟨mkRat 9 10, "a", {}⟩])
        [] "Hi" none (some 3)).2.1
      "hi" none (some 3)).1 =
      (search_knowledge_base (fun _ _ _ => Except.ok [⟨mkRat 9 10, "a", {}⟩])
        [] "Hi" none (some 3)).1 :=
  search_knowledge_base_cache_hit
    (fun _ _ _ => Except.ok [⟨mkRat 9 10, "a", {}⟩]) [] "Hi" "hi" none 3
    [⟨mkRat 9 10, "a", {}⟩] (by decide) rfl rfl

/-- C4: the query cache never grows past 100 entries, and eviction is FIFO:
a call that inserts a new key into a cache already holding 100 entries first
deletes exactly the oldest (head) entry and then appends the new entry at
the end, leaving every other entry unchanged. -/
theorem query_cache_bounded_fifo (fetch : Fetch) (cache : Cache) (q : String)
    (agentId : Option String) (topK? : Option ℕ) :
    (cache.length ≤ 100 →
      (search_knowledge_base fetch cache q agentId topK?).2.1.length ≤ 100)
  ∧ (∀ rs : List Chunk, cache.length = 100 →
      cacheLookup (cache_key_of agentId q (resolve_top_k q topK?)) cache =
        none →
      fetch (if agent_truthy agentId then agentId else none) q
        (resolve_top_k q topK?) = Except.ok rs →
      (search_knowledge_base fetch cache q agentId topK?).2.1 =
        cache.tail ++ [(cache_key_of agentId q (resolve_top_k q topK?),
          rs.filter (fun r => r.similarity_score ≥ confidence_threshold))]) := by
  constructor
  · intro hlen
    rcases hl : cacheLookup (cache_key_of agentId q (resolve_top_k q topK?))
        cache with _ | v
    · rcases hf : fetch (if agent_truthy agentId then agentId else none) q
          (resolve_top_k q topK?) with e | rs
      · rw [search_kb_miss_err fetch cache q agentId topK? e hl hf]
        exact hlen
      · rw [search_kb_miss_ok fetch cache q agentId topK? rs hl hf]
        by_cases hc : cache.length ≥ cache_max_size
        · rw [if_pos hc]
          have h100 : cache.length = 100 := le_antisymm hlen hc
          simp [List.length_append, List.length_tail, h100]
        · rw [if_neg hc]
          unfold cache_max_size at hc
          simp only [List.length_append, List.length_cons, List.length_nil]
          omega
    · rw [search_kb_hit fetch cache q agentId topK? v hl]
      exact hlen
  · intro rs hlen hm hf
    rw [search_kb_miss_ok fetch cache q agentId topK? rs hm hf,
      if_pos (by rw [hlen]; exact le_refl 100 : cache.length ≥ cache_max_size)]

theorem query_cache_bounded_fifo_witness :
    (search_knowledge_base (fun _ _ _ => Except.ok [⟨mkRat 9 10, "a", {}⟩])
      ((List.range 100).map (fun i => (Nat.repr i, ([] : List Chunk))))
      "q" none (some 5)).2.1 =
      ((List.range 100).map
        (fun i => (Nat.repr i, ([] : List Chunk)))).tail ++
        [(cache_key_of none "q" (resolve_top_k "q" (some 5)),
          List.filter (fun r => r.similarity_score ≥ confidence_threshold)
            [⟨mkRat 9 10, "a", {}⟩])] :=
  (query_cache_bounded_fifo (fun _ _ _ => Except.ok [⟨mkRat 9 10, "a", {}⟩])
    ((List.range 100).map (fun i => (Nat.repr i, ([] : List Chunk))))
    "q" none (some 5)).2 [⟨mkRat 9 10, "a", {}⟩] (by decide) (by decide) rfl

/-- The cache invariant of C7: every stored value only holds chunks at or
above the fixed similarity threshold. -/
def CacheFiltered (cache : Cache) : Prop :=
  ∀ kv ∈ cache, ∀ c ∈ kv.2, c.similarity_score ≥ confidence_threshold

lemma cacheLookup_filtered (key : String) (c : Cache) (v : List Chunk)
    (hinv : CacheFiltered c) (h : cacheLookup key c = some v) :
    ∀ x ∈ v, x.similarity_score ≥ confidence_threshold := by
  induction c with
  | nil => simp [cacheLookup] at h
  | cons kv rest ih =>
    obtain ⟨k, w⟩ := kv
    by_cases hk : k = key
    · simp only [cacheLookup, if_pos hk, Option.some.injEq] at h
      subst h
      exact fun x hx => hinv (k, w) (by simp) x hx
    · have hrest : CacheFiltered rest :=
        fun kv hkv => hinv kv (List.mem_cons_of_mem _ hkv)
      apply ih hrest
      simpa [cacheLookup, hk] using h

/-- C7: every chunk list `_search_knowledge_base` hands to its caller —
freshly fetched or served from cache — only holds chunks with similarity
score at least 0.3, and the cache keeps that invariant; since `get_response`
feeds exactly this returned list to the Confidence Evaluator, the Context
Assembler and source extraction, every chunk reaching them scores at
least 0.3. -/
theorem search_knowledge_base_filtered_invariant (fetch : Fetch)
    (cache : Cache) (q : String) (agentId : Option String) (topK? : Option ℕ)
    (hinv : CacheFiltered cache) :
    (∀ c ∈ (search_knowledge_base fetch cache q agentId topK?).1,
      c.similarity_score ≥ confidence_threshold)
  ∧ CacheFiltered (search_knowledge_base fetch cache q agentId topK?).2.1 := by
  rcases hl : cacheLookup (cache_key_of agentId q (resolve_top_k q topK?))
      cache with _ | v
  · rcases hf : fetch (if agent_truthy agentId then agentId else none) q
        (resolve_top_k q topK?) with e | rs
    · rw [search_kb_miss_err fetch cache q agentId topK? e hl hf]
      exact ⟨by simp, hinv⟩
    · rw [search_kb_miss_ok fetch cache q agentId topK? rs hl hf]
      constructor
      · intro c hc
        exact of_decide_eq_true (List.mem_filter.mp hc).2
      · intro kv hkv x hx
        rcases List.mem_append.mp hkv with h | h
        · have hmem : kv ∈ cache := by
            by_cases hcnd : cache.length ≥ cache_max_size
            · rw [if_pos hcnd] at h
              exact List.mem_of_mem_tail h
            · rwa [if_neg hcnd] at h
          exact hinv kv hmem x hx
        · simp only [List.mem_singleton] at h
          subst h
          exact of_decide_eq_true (List.mem_filter.mp hx).2
  · rw [search_kb_hit fetch cache q agentId topK? v hl]
    exact ⟨cacheLookup_filtered _ _ _ hinv hl, hinv⟩

theorem search_knowledge_base_filtered_invariant_witness :
    (∀ c ∈ (search_knowledge_base
        (fun _ _ _ => Except.ok [⟨mkRat 9 10, "a", {}⟩, ⟨mkRat 1 10, "b", {}⟩])
        [] "q" none (some 5)).1,
      c.similarity_score ≥ confidence_threshold)
  ∧ CacheFiltered (search_knowledge_base
      (fun _ _ _ => Except.ok [⟨mkRat 9 10, "a", {}⟩, ⟨mkRat 1 10, "b", {}⟩])
      [] "q" none (some 5)).2.1 :=
  search_knowledge_base_filtered_invariant
    (fun _ _ _ => Except.ok [⟨mkRat 9 10, "a", {}⟩, ⟨mkRat 1 10, "b", {}⟩])
    [] "q" none (some 5) (by simp [CacheFiltered])

/-- A parsed web link (`title`, `url`, `snippet`) as built by
`_parse_web_results`. -/
structure WebLink where
  title : String
  url : String
  snippet : String
deriving DecidableEq

/-- The dictionary `_search_web` / `_parse_web_results` produce:
`{"text": ..., "links": [...]}`. -/
structure WebResults where
  text : String
  links : List WebLink
deriving DecidableEq

/-- The fixed explicit-web-intent keyword list of
`_should_include_web_links`. -/
def web_keywords : List String :=
  ["search online", "search web", "find online", "look up online",
   "google", "internet", "website", "url", "link", "online",
   "current", "latest", "recent", "new", "updated", "today",
   "official website", "manufacturer website", "download",
   "buy", "purchase", "price", "cost", "where to buy"]

/-- The characters stripped from message words, `word.strip('.,?!')`. -/
def punct_chars : List Char := ['.', ',', '?', '!']

/-- `[word.strip('.,?!') for word in message_lower.split() if len(word) > 3]`. -/
def message_keywords (message_lower : String) : List String :=
  ((pySplit message_lower).filter (fun w => w.length > 3)).map
    (fun w => pyStripChars punct_chars w)

/-- `ChatService._should_include_web_links`.  The Python `web_results`
argument may be `None` (falsy) — modelled as `Option`; a present dict with a
missing or empty `links` list fails the same guard.  The four
`product_patterns` regular-expression searches (`re.search(p, message,
IGNORECASE)` — their effect is `any-pattern-matched ∧
len(kb_context.strip()) < 300`) are abstracted by the `productPatternHit`
oracle; every theorem below quantifies over it, as no claim depends on the
regex itself. -/
def should_include_web_links (productPatternHit : String → Bool)
    (message kb_context : String) (web_results : Option WebResults) : Bool :=
  match web_results with
  | none => false
  | some wr =>
    if wr.links.isEmpty then false
    else if web_keywords.any (fun k => strContains (pyLower message) k) then
      true
    else if kb_context = "" ∨ (pyStrip kb_context).length < 100 then true
    else if productPatternHit message ∧ (pyStrip kb_context).length < 300 then
      true
    else
      decide (mkRat (((message_keywords (pyLower message)).filter
          (fun k => strContains (pyLower wr.text) k)).length : ℤ)
        (max (message_keywords (pyLower message)).length 1) > mkRat 1 2)

/-- C10 (implicit guard): whenever the `web_results` argument is falsy or its
`links` list is missing/empty, `_should_include_web_links` returns false —
before and overriding every other rule, including the explicit web-intent
keywords and the short-`kb_context` rule. -/
theorem web_links_guard_empty_results (productPatternHit : String → Bool)
    (message kb_context : String) (web_results : Option WebResults)
    (h : web_results = none ∨
      ∃ wr, web_results = some wr ∧ wr.links = []) :
    should_include_web_links productPatternHit message kb_context web_results =
      false := by
  rcases h with h | ⟨wr, h, hl⟩
  · subst h
    rfl
  · subst h
    simp [should_include_web_links, hl]

theorem web_links_guard_empty_results_witness :
    should_include_web_links (fun _ => true) "buy the latest arm" "" none =
      false :=
  web_links_guard_empty_results (fun _ => true) "buy the latest arm" "" none
    (Or.inl rfl)

/-- C9 as stated is refuted by the preceding guard: the message `"buy"`
contains the keyword `"buy"`, yet with no web results the gate returns
false. -/
theorem web_links_intent_without_results :
    strContains (pyLower "buy") "buy" = true ∧
    should_include_web_links (fun _ => false) "buy" "" none = false :=
  ⟨by decide, rfl⟩

/-- C9 (amended): for every message containing the substring `"buy"` or
`"latest"` (case-insensitively) and every `kb_context` of any length,
provided web results are present with a non-empty `links` list,
`_should_include_web_links` returns true. -/
theorem web_links_intent_keywords (productPatternHit : String → Bool)
    (message kb_context : String) (wr : WebResults)
    (hlinks : wr.links ≠ [])
    (h : strContains (pyLower message) "buy" = true ∨
      strContains (pyLower message) "latest" = true) :
    should_include_web_links productPatternHit message kb_context (some wr) =
      true := by
  have hle : wr.links.isEmpty = false := by
    cases hwl : wr.links <;> simp_all
  have hany : web_keywords.any (fun k => strContains (pyLower message) k) =
      true := by
    rcases h with h | h
    · exact List.any_eq_true.mpr ⟨"buy", by simp [web_keywords], h⟩
    · exact List.any_eq_true.mpr ⟨"latest", by simp [web_keywords], h⟩
  simp [should_include_web_links, hle, hany]

theorem web_links_intent_keywords_witness :
    should_include_web_links (fun _ => false) "Where to BUY a spare part?"
      "some long knowledge base context"
      (some ⟨"", [⟨"shop", "https://shop.example", "spare parts"⟩]⟩) = true :=
  web_links_intent_keywords (fun _ => false) "Where to BUY a spare part?"
    "some long knowledge base context"
    ⟨"", [⟨"shop", "https://shop.example", "spare parts"⟩]⟩ (by decide)
    (Or.inl (by decide))

/-- `String.join`: Python `''.join` / string accumulation by `+=`. -/
def strJoin (l : List String) : String := l.foldl (fun a b => a ++ b) ""

/-- Python `sep.join(pieces)`. -/
def joinSep (sep : String) : List String → String
  | [] => ""
  | [x] => x
  | x :: xs => x ++ sep ++ joinSep sep xs

/-- Python `round(x, 3)` on an exact rational: round `x*1000` to the nearest
integer and divide back.  (Exact halves round up here; CPython rounds the
nearest double half-to-even — no claim depends on the tie behaviour.) -/
def round3 (q : ℚ) : ℚ :=
  mkRat (Int.fdiv (2 * (q.num * 1000) + q.den) (2 * q.den)) 1000

/-- One entry of the `sources` list `_extract_sources` builds: a document
source dict (`filename`, rounded `similarity_score`, `source_type`,
`upload_time`) or a web-link source dict (title as `filename`, `url`,
`snippet`, with constant `source_type='web_link'` and score 0.0). -/
inductive Source where
  | doc (filename : String) (similarity_score : ℚ) (source_type : String)
      (upload_time : String)
  | web (filename : String) (url : String) (snippet : String)
deriving DecidableEq

/-- The deduplicating loop of `_extract_sources` over the first 3 chunks:
`seen` is the set of filenames already emitted. -/
def extract_sources_aux : List Chunk → List String → List Source
  | [], _ => []
  | c :: rest, seen =>
    if c.metadata.filename = "Unknown" ∨ seen.contains c.metadata.filename then
      extract_sources_aux rest seen
    else
      Source.doc c.metadata.filename (round3 c.similarity_score)
        c.metadata.source c.metadata.upload_time ::
        extract_sources_aux rest (c.metadata.filename :: seen)

/-- `ChatService._extract_sources`: up to 3 document sources (first
occurrence per filename, `'Unknown'` skipped) followed by up to 3 web-link
sources. -/
def extract_sources (chunks : List Chunk) (web_links : List WebLink) :
    List Source :=
  extract_sources_aux (chunks.take 3) [] ++
    (web_links.take 3).map (fun l => Source.web l.title l.url l.snippet)

/-- The document part of `_build_context`: header plus one block per chunk
(first 3), 1-based numbering. -/
def doc_context (chunks : List Chunk) : String :=
  "Technical Documentation:\n" ++ strJoin ((chunks.take 3).enum.map
    (fun p => "\n[Source " ++ Nat.repr (p.1 + 1) ++ ": " ++
      p.2.metadata.filename ++ "]\n" ++ pyStrip p.2.text ++ "\n"))

/-- `ChatService._build_context`: document context (if any chunks) and web
text (if present and non-empty), joined by a blank line. -/
def build_context (chunks : List Chunk) (web_results : Option WebResults) :
    String :=
  joinSep "\n\n"
    ((if chunks.isEmpty then [] else [doc_context chunks]) ++
     (match web_results with
      | some wr => if wr.text = "" then [] else
          ["Web Search Results:\n" ++ wr.text]
      | none => []))

/-- Numbered markdown list of the first `n` web links,
`f"{i}. [{title}]({url})\n"` per link. -/
def enum_links (links : List WebLink) (n : ℕ) : String :=
  strJoin ((links.take n).enum.map (fun p =>
    Nat.repr (p.1 + 1) ++ ". [" ++ p.2.title ++ "](" ++ p.2.url ++ ")\n"))

/-- `ChatService._generate_fallback_response`: deterministic answer used when
the language model is unavailable, failed, or returned an empty string. -/
def generate_fallback_response (context query : String)
    (web_links : List WebLink) : String :=
  if context = "" then
    "I couldn\x27t find specific documentation for \x27" ++ query ++
      "\x27. " ++
      (if web_links.isEmpty then
        "Try uploading relevant technical manuals or rephrasing your question."
      else
        "However, I found these helpful resources:\n\n" ++
          enum_links web_links 3 ++
          "\nTry these links or upload relevant technical manuals for more specific help.")
  else
    "Here\x27s what I found: " ++
      pyTake (pyStrip (joinSep " " ((pySplitLines context).take 5))) 300 ++
      "..." ++
      (if web_links.isEmpty then "" else
        "\n\n**Helpful Links:**\n" ++ enum_links web_links 2) ++
      "\n(Note: LLM service temporarily unavailable - showing raw data)"

/-- The `ChatResponse` model the endpoint returns. -/
structure ChatResponse where
  response : String
  sources : List Source
  chunks_found : ℕ
deriving DecidableEq

/-- A stored conversation message as read back from the datastore
(`sender`, `text`). -/
structure HistMsg where
  sender : String
  text : String
deriving DecidableEq

/-- One converted conversation-history entry (`message`, `response`). -/
structure QA where
  message : String
  response : String
deriving DecidableEq

/-- The history-conversion loop of `get_response` step 0: user messages open
a new entry, bot messages fill the response of the last entry (if any). -/
def convert_history (msgs : List HistMsg) : List QA :=
  msgs.foldl (fun acc m =>
    if m.sender = "user" then acc ++ [⟨m.text, ""⟩]
    else if m.sender = "bot" then
      match acc.getLast? with
      | some last => acc.dropLast ++ [⟨last.message, m.text⟩]
      | none => acc
    else acc) []

/-- Python `l[-n:]`. -/
def takeLast {α : Type} (n : ℕ) (l : List α) : List α := l.drop (l.length - n)

/-- The `history_context` block of the prompt: last 3 exchanges, only those
with both message and response non-empty, truncated to 100 characters. -/
def history_context (hist : List QA) : String :=
  if hist.isEmpty then ""
  else
    "\n\nCONVERSATION CONTEXT (recent exchanges):\n" ++
      strJoin ((takeLast 3 hist).enum.map (fun p =>
        if p.2.message ≠ "" ∧ p.2.response ≠ "" then
          "Previous Q" ++ Nat.repr (p.1 + 1) ++ ": " ++
            pyTake p.2.message 100 ++ "...\n" ++
            "Previous A" ++ Nat.repr (p.1 + 1) ++ ": " ++
            pyTake p.2.response 100 ++ "...\n\n"
        else ""))

/-- The `links_text` block of the prompt (non-empty only when links were
kept by the Relevance Gate). -/
def links_text (web_links : List WebLink) : String :=
  if web_links.isEmpty then ""
  else
    "\n\nRELEVANT LINKS (include these when helpful):\n" ++
      enum_links web_links 3

/-- The `link_guidance` guideline line (non-empty only with links). -/
def link_guidance (web_links : List WebLink) : String :=
  if web_links.isEmpty then ""
  else "- When you have relevant links, include them naturally in your response\n"

/-- The prompt f-string of `get_response` step 4, with the five interpolated
pieces as parameters. -/
def build_prompt (context linksText historyContext agentInstructions
    linkGuidance message : String) : String :=
  "You are a friendly technical support chatbot helping maintenance technicians. Provide helpful, conversational answers based on the information below.\n\nTechnical Documentation:\n" ++
  context ++ linksText ++ historyContext ++
  "\n\nExtra instructions for your response:\n" ++ agentInstructions ++
  "\n\nUser Question: " ++ message ++
  "\n\nCHATBOT RESPONSE GUIDELINES:\n- Be conversational and helpful, like talking to a colleague\n- Keep initial answers concise (2-3 sentences) but offer to elaborate\n- Use bullet points for step-by-step instructions\n- Include part numbers and safety warnings when available\n" ++
  linkGuidance ++
  "- If info is incomplete, suggest specific next steps or resources\n- Use friendly language: \"Here\x27s what I found...\", \"You\x27ll want to...\", \"Let me help with that...\"\n- Reference previous conversation when relevant\n- Follow any agent-specific instructions provided above\n\nEXAMPLE RESPONSES:\nQ: \"How do I reset the system?\"\nTo reset the system, press and hold the reset button for 5 seconds - you\x27ll find it on the main control panel (Part #RST-001).\n\nQ: \"What\x27s the operating temperature range?\"\nThe operating range is -10°C to 60°C. Need to know anything specific about temperature monitoring or troubleshooting?\n\nQ: \"How do I replace the filter?\"\nHere\x27s how to replace the filter:\n\n• **First, turn off power** and unplug the unit for safety\n• Remove the front panel by pressing the two side tabs\n• Slide out the old filter (Part #FLT-200) and dispose of it\n• Insert the new filter until you hear it click into place\n• Reattach the panel and power back up\n\nNeed help finding the right replacement filter or have questions about the process?\n\nYour response:"

/-- The external collaborators of `get_response`, as oracles.  Each
`Except String` result models the corresponding awaited call either
returning or raising.  `historyFetch` is the datastore read behind
`get_conversation_history` (which catches and returns `[]` itself);
`fetch` is the vector search of `_search_knowledge_base`; `hasWebTool` /
`hasLLM` are the truthiness of `self.web_search_tool` / `self.llm`;
`webSearch` is the Serper call plus `_parse_web_results` behind
`_search_web` (which catches and returns empty results itself — the
`_generate_search_query` preprocessing lives inside this collaborator
boundary); `patternHit` abstracts the `product_patterns` regex searches of
the Relevance Gate; `agentLookup` is `agent_service.get_agent`, yielding the
agent extra instructions when present and truthy; `llmInvoke` is
`self.llm.invoke` on the prompt.  The `user_id` pass-through is absorbed
into `fetch`. -/
structure Oracles where
  historyFetch : String → Except String (List HistMsg)
  fetch : Fetch
  hasWebTool : Bool
  webSearch : String → Except String WebResults
  patternHit : String → Bool
  hasLLM : Bool
  agentLookup : String → Except String (Option String)
  llmInvoke : String → Except String String

/-- The intermediate values of one orchestration call (steps 0–3 of
`get_response`), named so theorems can speak about them. -/
structure Trace where
  conversation_history : List QA
  chunks : List Chunk
  cache_after : Cache
  kb_context : String
  kb_confidence : KbConfidence
  web_results : Option WebResults
  web_links : List WebLink
  context : String

/-- Steps 0–3 of `get_response`: history load and conversion, cached
adaptive retrieval, kb-only context, confidence evaluation, conditional web
search with link truncation to 3 and the Relevance Gate, full context
assembly. -/
def run_stages (o : Oracles) (cache : Cache) (message : String)
    (conversation_id agent_id : Option String) : Trace :=
  let history_data : List HistMsg :=
    match conversation_id with
    | none => []
    | some cid =>
      if cid = "" then []
      else
        match o.historyFetch cid with
        | Except.ok data => data
        | Except.error _ => []
  let conversation_history := convert_history history_data
  let skb := search_knowledge_base o.fetch cache message agent_id none
  let chunks := skb.1
  let kb_context := if chunks.isEmpty then "" else build_context chunks none
  let kb_conf := evaluate_kb_confidence chunks message
  let web_results : Option WebResults :=
    if kb_conf.should_search_web ∧ o.hasWebTool then
      some (match o.webSearch message with
        | Except.ok r => ⟨r.text, r.links.take 3⟩
        | Except.error _ => ⟨"", []⟩)
    else none
  let web_links : List WebLink :=
    match web_results with
    | some wr =>
      if should_include_web_links o.patternHit message kb_context (some wr)
      then wr.links else []
    | none => []
  ⟨conversation_history, chunks, skb.2.1, kb_context, kb_conf, web_results,
    web_links, build_context chunks web_results⟩

/-- The agent-instructions lookup at the start of the LLM `try` block:
`""` unless the agent id is truthy and the agent has truthy
`extra_instructions`; a raising lookup propagates to the block's handler. -/
def agent_instructions_step (o : Oracles) :
    Option String → Except String String
  | none => Except.ok ""
  | some a =>
    if a = "" then Except.ok ""
    else
      match o.agentLookup a with
      | Except.ok (some instr) =>
        Except.ok ("\n\nAGENT-SPECIFIC INSTRUCTIONS:\n" ++ instr)
      | Except.ok none => Except.ok ""
      | Except.error e => Except.error e

/-- The LLM `try` block of `get_response` step 4: agent lookup, prompt
construction, model invocation, empty-answer fallback, source extraction.
An `Except.error` is an exception reaching this block's own handler. -/
def llm_step (o : Oracles) (t : Trace) (message : String)
    (agent_id : Option String) : Except String ChatResponse :=
  match agent_instructions_step o agent_id with
  | Except.error e => Except.error e
  | Except.ok agent_instructions =>
    match o.llmInvoke (build_prompt t.context (links_text t.web_links)
        (history_context t.conversation_history) agent_instructions
        (link_guidance t.web_links) message) with
    | Except.error e => Except.error e
    | Except.ok response_text =>
      Except.ok
        ⟨if response_text = "" ∨ (pyStrip response_text).length = 0 then
            generate_fallback_response t.context message t.web_links
          else response_text,
         extract_sources t.chunks t.web_links, t.chunks.length⟩

/-- The fixed no-context reply of `get_response` step 3. -/
def no_info_response : String :=
  "I\x27m sorry, I couldn\x27t find any relevant information for your query. Please upload relevant technical documentation or try rephrasing your question."

/-- The fixed apologetic reply of the outermost `except` handler of
`get_response`. -/
def apologetic_response : ChatResponse :=
  ⟨"I apologize, but I encountered an error while processing your request. Please try again.",
   [], 0⟩

/-- The body of the outermost `try` of `get_response`: empty-context early
return, LLM path with its own handler falling through to the deterministic
fallback, or the fallback directly when no LLM is configured.  An
`Except.error` would be an exception reaching the outermost handler. -/
def get_response_body (o : Oracles) (cache : Cache) (message : String)
    (conversation_id agent_id : Option String) :
    Except String (ChatResponse × Cache) :=
  let t := run_stages o cache message conversation_id agent_id
  if t.context = "" then
    Except.ok (⟨no_info_response, [], 0⟩, t.cache_after)
  else if o.hasLLM then
    match llm_step o t message agent_id with
    | Except.ok resp => Except.ok (resp, t.cache_after)
    | Except.error _ =>
      Except.ok
        (⟨generate_fallback_response t.context message t.web_links,
          extract_sources t.chunks t.web_links, t.chunks.length⟩,
         t.cache_after)
  else
    Except.ok
      (⟨generate_fallback_response t.context message t.web_links,
        extract_sources t.chunks t.web_links, t.chunks.length⟩,
       t.cache_after)

/-- `ChatService.get_response`: the orchestrator, outermost handler
included.  Returns the `ChatResponse` and the query cache after the call. -/
def get_response (o : Oracles) (cache : Cache) (message : String)
    (conversation_id agent_id : Option String) : ChatResponse × Cache :=
  match get_response_body o cache message conversation_id agent_id with
  | Except.ok r => r
  | Except.error _ => (apologetic_response, cache)

lemma llm_step_error (o : Oracles) (t : Trace) (message : String)
    (aid : Option String) (e : String)
    (hllm : ∀ p, o.llmInvoke p = Except.error e) :
    ∃ e2, llm_step o t message aid = Except.error e2 := by
  rcases hs : agent_instructions_step o aid with e2 | instr
  · exact ⟨e2, by simp [llm_step, hs]⟩
  · exact ⟨e, by simp [llm_step, hs, hllm]⟩

/-- C5 (amended): `get_response` never propagates an exception — for every
outcome of every fallible collaborator its body completes without an error
reaching the outermost handler, because each awaited step is wrapped by its
own inner handler; in particular an exception thrown by the LLM call (or the
agent lookup inside the same `try`) is caught at the LLM-block boundary and
produces exactly the answer of the no-LLM fallback path (deterministic
fallback text, sources and chunk count from the retrieved chunks) — not the
apologetic message, which only the outermost handler emits. -/
theorem get_response_error_containment (cache : Cache) (message : String)
    (cid aid : Option String) :
    (∀ o : Oracles,
      ∃ r, get_response_body o cache message cid aid = Except.ok r)
  ∧ (∀ (o : Oracles) (e : String), o.hasLLM = true →
      (∀ p, o.llmInvoke p = Except.error e) →
      get_response o cache message cid aid =
        get_response { o with hasLLM := false } cache message cid aid) := by
  constructor
  · intro o2
    simp only [get_response_body]
    by_cases h1 : (run_stages o2 cache message cid aid).context = ""
    · rw [if_pos h1]
      exact ⟨_, rfl⟩
    · rw [if_neg h1]
      by_cases h2 : o2.hasLLM = true
      · rw [if_pos h2]
        rcases hs : llm_step o2 (run_stages o2 cache message cid aid) message
            aid with e | r
        · simp [hs]
        · simp [hs]
      · rw [if_neg h2]
        exact ⟨_, rfl⟩
  · intro o e hasL hllm
    obtain ⟨e2, hs⟩ :=
      llm_step_error o (run_stages o cache message cid aid) message aid e hllm
    unfold get_response
    have hb : get_response_body o cache message cid aid =
        get_response_body { o with hasLLM := false } cache message cid aid := by
      simp only [get_response_body]
      have hrs : run_stages { o with hasLLM := false } cache message cid aid =
          run_stages o cache message cid aid := rfl
      rw [hrs]
      by_cases h1 : (run_stages o cache message cid aid).context = ""
      · rw [if_pos h1, if_pos h1]
      · rw [if_neg h1, if_neg h1]
        simp [hasL, hs]
    rw [hb]

/-- A concrete environment for C5: the knowledge base returns one good
chunk, no web tool, and the configured LLM raises on every invocation. -/
def o_llm_down : Oracles :=
  { historyFetch := fun _ => Except.ok []
    fetch := fun _ _ _ => Except.ok [⟨mkRat 9 10, "press the reset button", {}⟩]
    hasWebTool := false
    webSearch := fun _ => Except.error "no tool"
    patternHit := fun _ => false
    hasLLM := true
    agentLookup := fun _ => Except.ok none
    llmInvoke := fun _ => Except.error "llm down" }

/-- C5 as stated is refuted: with `o_llm_down` the LLM call raises — an
exception of an inner step — yet the orchestrator answers with the
deterministic fallback carrying `chunks_found = 1` and a document source,
not with the apologetic message / empty sources / zero chunks the claim
requires for every inner exception. -/
theorem get_response_inner_error_not_apologetic :
    (get_response o_llm_down [] "hello" none none).1.chunks_found = 1 ∧
    (get_response o_llm_down [] "hello" none none).1 ≠ apologetic_response := by
  constructor
  · decide
  · decide

theorem get_response_error_containment_witness :
    (∃ r, get_response_body o_llm_down [] "hello" none none = Except.ok r)
  ∧ get_response o_llm_down [] "hello" none none =
      get_response { o_llm_down with hasLLM := false } [] "hello" none none :=
  ⟨(get_response_error_containment [] "hello" none none).1 o_llm_down,
   (get_response_error_containment [] "hello" none none).2 o_llm_down
     "llm down" rfl (fun _ => rfl)⟩

lemma listStarts_append (n x y : List Char)
    (h : listStarts n x = true) : listStarts n (x ++ y) = true := by
  induction n generalizing x with
  | nil => rfl
  | cons a as ih =>
    cases x with
    | nil => simp [listStarts] at h
    | cons b bs =>
      simp only [listStarts, List.cons_append, Bool.and_eq_true,
        decide_eq_true_eq] at h ⊢
      exact ⟨h.1, ih bs h.2⟩

lemma listHasSub_nil (l : List Char) : listHasSub [] l = true := by
  cases l <;> simp [listHasSub, listStarts, List.isEmpty]

lemma listHasSub_append_left (n x y : List Char)
    (h : listHasSub n x = true) : listHasSub n (x ++ y) = true := by
  induction x with
  | nil =>
    have hn : n = [] := by cases n <;> simp_all [listHasSub]
    subst hn
    simpa using listHasSub_nil y
  | cons b bs ih =>
    rw [List.cons_append]
    simp only [listHasSub, Bool.or_eq_true] at h ⊢
    rcases h with h | h
    · exact Or.inl (by rw [← List.cons_append]; exact listStarts_append n (b :: bs) y h)
    · exact Or.inr (ih h)

lemma strContains_append_left (a b pat : String)
    (h : strContains a pat = true) : strContains (a ++ b) pat = true := by
  unfold strContains at h ⊢
  rw [String.data_append]
  exact listHasSub_append_left _ _ _ h

lemma fallback_nonempty_contains (context query : String)
    (links : List WebLink) (h : context ≠ "") :
    strContains (generate_fallback_response context query links)
      "Here\x27s what I found" = true := by
  unfold generate_fallback_response
  rw [if_neg h]
  apply strContains_append_left
  apply strContains_append_left
  apply strContains_append_left
  apply strContains_append_left
  decide

lemma fallback_empty_contains (query : String) (links : List WebLink) :
    strContains (generate_fallback_response "" query links)
      "couldn\x27t find specific documentation" = true := by
  unfold generate_fallback_response
  rw [if_pos rfl]
  apply strContains_append_left
  apply strContains_append_left
  apply strContains_append_left
  decide

/-- C8: when the assembled context is non-empty, the LLM is configured and
returns an empty or whitespace-only string, the orchestrator's answer is
exactly the deterministic fallback `_generate_fallback_response` builds from
the first 5 lines of the context truncated to 300 characters plus the
included web links, and that answer contains the phrase "Here's what I
found"; on an empty context `_generate_fallback_response` instead produces
text containing "couldn't find specific documentation". -/
theorem empty_llm_fallback_content (o : Oracles) (cache : Cache)
    (message : String) (cid aid : Option String) (s : String)
    (hasL : o.hasLLM = true)
    (hllm : ∀ p, o.llmInvoke p = Except.ok s)
    (hws : pyStrip s = "")
    (hctx : (run_stages o cache message cid aid).context ≠ "") :
    (get_response o cache message cid aid).1.response =
      generate_fallback_response
        (run_stages o cache message cid aid).context message
        (run_stages o cache message cid aid).web_links
  ∧ strContains (get_response o cache message cid aid).1.response
      "Here\x27s what I found" = true
  ∧ ∀ (q : String) (links : List WebLink),
      strContains (generate_fallback_response "" q links)
        "couldn\x27t find specific documentation" = true := by
  have hcond : s = "" ∨ (pyStrip s).length = 0 := Or.inr (by rw [hws]; rfl)
  have hresp : (get_response o cache message cid aid).1.response =
      generate_fallback_response
        (run_stages o cache message cid aid).context message
        (run_stages o cache message cid aid).web_links := by
    simp only [get_response, get_response_body]
    rw [if_neg hctx, if_pos hasL]
    rcases hs : agent_instructions_step o aid with e2 | instr
    · have hst : llm_step o (run_stages o cache message cid aid) message aid =
          Except.error e2 := by simp [llm_step, hs]
      simp [hst]
    · have hst : llm_step o (run_stages o cache message cid aid) message aid =
          Except.ok
            ⟨generate_fallback_response
              (run_stages o cache message cid aid).context message
              (run_stages o cache message cid aid).web_links,
             extract_sources (run_stages o cache message cid aid).chunks
               (run_stages o cache message cid aid).web_links,
             (run_stages o cache message cid aid).chunks.length⟩ := by
        simp [llm_step, hs, hllm, hcond]
      simp [hst]
  refine ⟨hresp, ?_, fun q links => fallback_empty_contains q links⟩
  rw [hresp]
  exact fallback_nonempty_contains _ _ _ hctx

/-- A concrete environment for C8: one good chunk, LLM configured but
answering a whitespace-only string. -/
def o_llm_blank : Oracles :=
  { o_llm_down with llmInvoke := fun _ => Except.ok " " }

theorem empty_llm_fallback_content_witness :
    (get_response o_llm_blank [] "hello" none none).1.response =
      generate_fallback_response
        (run_stages o_llm_blank [] "hello" none none).context "hello"
        (run_stages o_llm_blank [] "hello" none none).web_links
  ∧ strContains (get_response o_llm_blank [] "hello" none none).1.response
      "Here\x27s what I found" = true
  ∧ strContains (generate_fallback_response "" "hello" [])
      "couldn\x27t find specific documentation" = true := by
  obtain ⟨h1, h2, h3⟩ := empty_llm_fallback_content o_llm_blank [] "hello"
    none none " " rfl (fun _ => rfl) (by decide) (by decide)
  exact ⟨h1, h2, h3 "hello" []⟩
